import Mathlib

/-!
Verification of the honeycomb-cleaner core: a shallow embedding of the
rate-limit-aware API client (src/honeycomb_cleaner/client.py) and the
inactivity classifier (src/honeycomb_cleaner/main.py), with theorems
settling the frozen specification claims.

Modelling conventions:
* Python response bodies are JSON values (`JsonVal`).  The outcome of
  `response.json()` is carried on the response as `jsonResult`
  (`Except Unit JsonVal`; `.error ()` models the `ValueError` /
  `requests.exceptions.JSONDecodeError` raised on an unparseable body).
* Python exceptions that the code under scrutiny may raise and that are
  not caught are surfaced as `Except PyErr`.
* Time is measured in integer microseconds (datetime resolution).
* The HTTP transport is an oracle `Nat → AttemptOutcome` giving the
  outcome of the n-th HTTP request of a logical client call sequence;
  `.exn` is a transport-level `requests.exceptions.RequestException`
  (whose `response` attribute is `None`).
-/

namespace HoneycombCleaner

/-! ### String helpers (Python `in`, `str.isdigit`, `str.lower`, `str.replace`) -/

/-- `charsPre n h` : the list `n` is an initial segment of `h`. -/
def charsPre : List Char → List Char → Bool
  | [], _ => true
  | _ :: _, [] => false
  | n :: ns, h :: hs => n == h && charsPre ns hs

/-- `charsSub n h` : the list `n` occurs contiguously inside `h`
(Python substring containment `n in h`). -/
def charsSub (needle : List Char) : List Char → Bool
  | [] => charsPre needle []
  | h :: hs => charsPre needle (h :: hs) || charsSub needle hs

/-- Python `needle in hay` on strings. -/
def strContains (hay needle : String) : Bool :=
  charsSub needle.toList hay.toList

/-- Python `s.lower()` (ASCII case folding, which covers the constant
needles compared by the code). -/
def strLower (s : String) : String :=
  ⟨s.toList.map Char.toLower⟩

/-- Python `s.isdigit()` (restricted to ASCII digit strings, the only
ones for which `int(s)` also succeeds). -/
def pyIsDigit (s : String) : Bool :=
  s ≠ "" && s.toList.all Char.isDigit

/-- Numeric value of an ASCII digit string (`int(s)` on a digit string). -/
def digitsToNat (s : String) : Nat :=
  s.toList.foldl (fun acc c => 10 * acc + (c.toNat - 48)) 0

/-- `s.replace('Z', '+00:00')` from the classifier code: every `Z`
character is replaced by the five characters `+00:00`. -/
def replaceZ (s : String) : String :=
  ⟨s.toList.foldr (fun c acc => if c == 'Z' then '+' :: '0' :: '0' :: ':' :: '0' :: '0' :: acc else c :: acc) []⟩

/-! ### JSON values and Python dynamic-typing errors -/

/-- A parsed JSON value, as produced by `response.json()`.  Objects are
association lists; objects produced by the JSON parser have distinct
keys. -/
inductive JsonVal where
  | null
  | bool (b : Bool)
  | num (n : Int)
  | str (s : String)
  | arr (xs : List JsonVal)
  | obj (fields : List (String × JsonVal))

/-- Uncaught Python exception kinds relevant to the modelled code. -/
inductive PyErr where
  | valueError
  | keyError
  | typeError
  | attributeError
  deriving DecidableEq, Repr

/-- First binding of `key` in an object field list (objects coming from
the JSON parser have unique keys, so this is dictionary lookup). -/
def lookupField (fs : List (String × JsonVal)) (key : String) : Option JsonVal :=
  match fs with
  | [] => none
  | (k, v) :: rest => if k == key then some v else lookupField rest key

/-- Python `d.get(key)` (default `None`) on a JSON object field list. -/
def fieldGet (fs : List (String × JsonVal)) (key : String) : JsonVal :=
  (lookupField fs key).getD .null

/-- Python `d.get(key, default)` on a JSON object field list. -/
def fieldGetD (fs : List (String × JsonVal)) (key : String) (default : JsonVal) : JsonVal :=
  (lookupField fs key).getD default

/-- Python truthiness of a JSON value (`if not x`). -/
def pyTruthy : JsonVal → Bool
  | .null => false
  | .bool b => b
  | .num n => n ≠ 0
  | .str s => s ≠ ""
  | .arr xs => !xs.isEmpty
  | .obj fs => !fs.isEmpty

/-- Python `key in container` on a JSON value: key membership for
objects, substring for strings, element equality for arrays, and a
`TypeError` for the remaining (non-container) values. -/
def pyContains (key : String) : JsonVal → Except PyErr Bool
  | .obj fs => .ok ((lookupField fs key).isSome)
  | .str s => .ok (strContains s key)
  | .arr xs => .ok (xs.any fun v => match v with | .str s => s == key | _ => false)
  | _ => .error .typeError

/-- Python `container[key]` with a string key: object lookup (a missing
key is a `KeyError`), and a `TypeError` on strings, arrays and other
values (string and list indices must be integers). -/
def pyIndex (j : JsonVal) (key : String) : Except PyErr JsonVal :=
  match j with
  | .obj fs =>
    match lookupField fs key with
    | some v => .ok v
    | none => .error .keyError
  | _ => .error .typeError

/-- Python `x.lower()`: defined on strings, an `AttributeError` on
every other value. -/
def pyLower : JsonVal → Except PyErr String
  | .str s => .ok (strLower s)
  | _ => .error .attributeError

/-! ### HTTP responses -/

/-- The parts of a `requests` response observed by the client code. -/
structure Response where
  status_code : Nat
  /-- `response.headers.get('Retry-After')`; `none` when the header is
  absent. -/
  retryAfter : Option String
  /-- `response.text` (the raw body). -/
  text : String
  /-- Outcome of `response.json()`: the parsed body, or `.error ()` for
  the `ValueError` (`JSONDecodeError`) raised on an unparseable body. -/
  jsonResult : Except Unit JsonVal

/-- `response.raise_for_status()` raises exactly for 4xx and 5xx
status codes. -/
def raiseStatus (r : Response) : Bool :=
  400 ≤ r.status_code && r.status_code < 600

/-! ### `HoneycombClient._is_deletion_protected` and `_print_delete_error` -/

/-- `_is_deletion_protected(response)` from client.py.  It first tests
`response.text and 'delete protected' in response.text.lower()`, then
falls back to the parsed JSON body, catching only `ValueError` and
`KeyError`; a `TypeError` (from `'error' in non_container`, or from
indexing a string or array) and an `AttributeError` (from `.lower()`
on a non-string `error` value) escape. -/
def is_deletion_protected (r : Response) : Except PyErr Bool :=
  if r.text ≠ "" && strContains (strLower r.text) "delete protected" then
    .ok true
  else
    match r.jsonResult with
    | .error _ => .ok false
    | .ok j =>
      match pyContains "error" j with
      | .error .valueError => .ok false
      | .error .keyError => .ok false
      | .error e => .error e
      | .ok false => .ok false
      | .ok true =>
        match pyIndex j "error" with
        | .error .valueError => .ok false
        | .error .keyError => .ok false
        | .error e => .error e
        | .ok v =>
          match pyLower v with
          | .error .valueError => .ok false
          | .error .keyError => .ok false
          | .error e => .error e
          | .ok s => .ok (strContains s "delete protected")

/-- `_print_delete_error(response, slug)` from client.py: prints the
status and, when the body is JSON with an `error` field, that message;
only `ValueError` and `KeyError` are caught, so `'error' in
error_details` on a non-container body raises a `TypeError`, and
indexing a string or array body that contains `"error"` does too. -/
def print_delete_error (r : Response) : Except PyErr Unit :=
  match r.jsonResult with
  | .error _ => .ok ()
  | .ok j =>
    match pyContains "error" j with
    | .error .valueError => .ok ()
    | .error .keyError => .ok ()
    | .error e => .error e
    | .ok false => .ok ()
    | .ok true =>
      match pyIndex j "error" with
      | .error .valueError => .ok ()
      | .error .keyError => .ok ()
      | .error e => .error e
      | .ok _ => .ok ()

/-- Bodies on which `_print_delete_error` alone is exception-free: the
body fails to parse, or parses as a JSON object (any `error` value is
formatted by `print` without raising), or as a string or array not
containing `"error"` (those would raise a `TypeError` at
`error_details["error"]`; a non-container body raises one already at
`"error" in error_details`). -/
def printSafe (r : Response) : Bool :=
  match r.jsonResult with
  | .error _ => true
  | .ok j =>
    match j with
    | .obj _ => true
    | .str s => !strContains s "error"
    | .arr xs => !(xs.any fun v => match v with | .str s => s == "error" | _ => false)
    | _ => false

/-- Bodies on which the deletion-protection check and the error printer
are exception-free: the body fails to parse, or parses as an object
whose `error` field (if any) is a string, or as a string or array not
containing `"error"`.  Compared with `printSafe` this additionally
excludes objects with a non-string `error` value, whose `.lower()`
raises inside `_is_deletion_protected`. -/
def benignBody (r : Response) : Bool :=
  match r.jsonResult with
  | .error _ => true
  | .ok j =>
    match j with
    | .obj fs =>
      match lookupField fs "error" with
      | none => true
      | some (.str _) => true
      | some _ => false
    | .str s => !strContains s "error"
    | .arr xs => !(xs.any fun v => match v with | .str s => s == "error" | _ => false)
    | _ => false

/-- The protection condition exactly as the specification words it:
the body text, or the string value of the JSON `error` field, contains
the substring "delete protected" case-insensitively. -/
def claimProtected (r : Response) : Bool :=
  strContains (strLower r.text) "delete protected" ||
    (match r.jsonResult with
     | .ok (.obj fs) =>
       match lookupField fs "error" with
       | some (.str s) => strContains (strLower s) "delete protected"
       | _ => false
     | _ => false)

/-- On the claimed protection condition the code check agrees and
returns `true` without raising. -/
theorem claimProtected_check {r : Response} (h : claimProtected r = true) :
    is_deletion_protected r = .ok true := by
  obtain ⟨st, ra, tx, js⟩ := r
  unfold claimProtected at h
  unfold is_deletion_protected
  by_cases htext : strContains (strLower tx) "delete protected" = true
  · have hne2 : tx ≠ "" := by
      intro hh
      subst hh
      exact absurd htext (by decide)
    simp only at htext ⊢
    simp [hne2, htext]
  · have hfalse : strContains (strLower tx) "delete protected" = false :=
      Bool.not_eq_true _ ▸ Bool.of_not_eq_true htext
    simp only [hfalse, Bool.false_or] at h
    simp only [hfalse, Bool.and_false, Bool.false_eq_true, if_false]
    cases js with
    | error e => simp at h
    | ok j =>
      cases j with
      | obj fs =>
        simp only at h
        cases hf : lookupField fs "error" with
        | none => rw [hf] at h; simp at h
        | some v =>
          rw [hf] at h
          cases v with
          | str s =>
            simp only at h
            simp [pyContains, hf, pyIndex, pyLower, h]
          | null => simp at h
          | bool b => simp at h
          | num n => simp at h
          | arr xs => simp at h
          | obj fs2 => simp at h
      | null => simp at h
      | bool b => simp at h
      | num n => simp at h
      | str s => simp at h
      | arr xs => simp at h

/-- On a print-safe body the error printer does not raise. -/
theorem printSafe_print {r : Response} (hb : printSafe r = true) :
    print_delete_error r = .ok () := by
  obtain ⟨st, ra, tx, js⟩ := r
  unfold printSafe at hb
  unfold print_delete_error
  cases js with
  | error e => rfl
  | ok j =>
    cases j with
    | null => simp at hb
    | bool b => simp at hb
    | num n => simp at hb
    | str s =>
      simp only at hb ⊢
      simp only [pyContains]
      have : strContains s "error" = false := by
        revert hb
        cases strContains s "error" <;> simp
      rw [this]
    | arr xs =>
      simp only at hb ⊢
      simp only [pyContains]
      have : (xs.any fun v => match v with | .str s => s == "error" | _ => false) = false := by
        revert hb
        cases (xs.any fun v => match v with | .str s => s == "error" | _ => false) <;> simp
      rw [this]
    | obj fs =>
      simp only
      cases hf : lookupField fs "error" with
      | none => simp [pyContains, hf]
      | some v => simp [pyContains, hf, pyIndex]

/-- On a benign body the error printer does not raise. -/
theorem benign_print {r : Response} (hb : benignBody r = true) :
    print_delete_error r = .ok () := by
  obtain ⟨st, ra, tx, js⟩ := r
  unfold benignBody at hb
  unfold print_delete_error
  cases js with
  | error e => rfl
  | ok j =>
    cases j with
    | null => simp at hb
    | bool b => simp at hb
    | num n => simp at hb
    | str s =>
      simp only at hb ⊢
      simp only [pyContains]
      have : strContains s "error" = false := by
        revert hb
        cases strContains s "error" <;> simp
      rw [this]
    | arr xs =>
      simp only at hb ⊢
      simp only [pyContains]
      have : (xs.any fun v => match v with | .str s => s == "error" | _ => false) = false := by
        revert hb
        cases (xs.any fun v => match v with | .str s => s == "error" | _ => false) <;> simp
      rw [this]
    | obj fs =>
      simp only at hb ⊢
      cases hf : lookupField fs "error" with
      | none => simp [pyContains, hf]
      | some v =>
        rw [hf] at hb
        cases v with
        | str s => simp [pyContains, hf, pyIndex]
        | null => simp at hb
        | bool b => simp at hb
        | num n => simp at hb
        | arr xs => simp at hb
        | obj fs2 => simp at hb

/-- On a benign body that does not satisfy the protection condition,
the protection check returns `false` without raising. -/
theorem benign_not_protected {r : Response} (hb : benignBody r = true)
    (hp : claimProtected r = false) :
    is_deletion_protected r = .ok false := by
  obtain ⟨st, ra, tx, js⟩ := r
  unfold benignBody at hb
  unfold claimProtected at hp
  unfold is_deletion_protected
  have htf : strContains (strLower tx) "delete protected" = false := by
    revert hp
    cases strContains (strLower tx) "delete protected" <;> simp
  simp only [htf, Bool.and_false, Bool.false_eq_true, if_false]
  cases js with
  | error e => rfl
  | ok j =>
    cases j with
    | null => simp at hb
    | bool b => simp at hb
    | num n => simp at hb
    | str s =>
      simp only at hb ⊢
      simp only [pyContains]
      have : strContains s "error" = false := by
        revert hb
        cases strContains s "error" <;> simp
      rw [this]
    | arr xs =>
      simp only at hb ⊢
      simp only [pyContains]
      have : (xs.any fun v => match v with | .str s => s == "error" | _ => false) = false := by
        revert hb
        cases (xs.any fun v => match v with | .str s => s == "error" | _ => false) <;> simp
      rw [this]
    | obj fs =>
      simp only [htf, Bool.false_or] at hp
      simp only at hb ⊢
      cases hf : lookupField fs "error" with
      | none => simp [pyContains, hf]
      | some v =>
        rw [hf] at hb hp
        cases v with
        | str s =>
          simp only at hp
          simp [pyContains, hf, pyIndex, pyLower, hp]
        | null => simp at hb
        | bool b => simp at hb
        | num n => simp at hb
        | arr xs => simp at hb
        | obj fs2 => simp at hb

/-! ### `_handle_rate_limit`: Retry-After parsing

The header value is either a digit string (seconds) or an HTTP date
parsed with `datetime.strptime(retry_after, '%a, %d %b %Y %H:%M:%S %Z')`
and reinterpreted as UTC.  The strptime model below follows the CPython
`_strptime` regex semantics for that format: abbreviated weekday and
month names matched case-insensitively, 1-2 digit numeric fields with
the regex value ranges, a run of whitespace for each literal space, a
timezone name drawn from UTC/GMT, full-string match, and finally the
`datetime` constructor range validation. -/

def microsPerSecond : Int := 1000000

def microsPerDay : Int := 86400000000

/-- Day count of a proleptic Gregorian civil date relative to
1970-01-01 (standard civil-from-days inverse). -/
def daysFromCivil (y m d : Int) : Int :=
  let y2 := if m ≤ 2 then y - 1 else y
  let era := (if 0 ≤ y2 then y2 else y2 - 399) / 400
  let yoe := y2 - era * 400
  let mp := (m + 9) % 12
  let doy := (153 * mp + 2) / 5 + d - 1
  let doe := yoe * 365 + yoe / 4 - yoe / 100 + doy
  era * 146097 + doe - 719468

def isLeap (y : Nat) : Bool :=
  y % 4 == 0 && (y % 100 != 0 || y % 400 == 0)

def daysInMonth (y m : Nat) : Nat :=
  if m == 2 then (if isLeap y then 29 else 28)
  else if m == 4 || m == 6 || m == 9 || m == 11 then 30
  else 31

/-- Case-insensitive match of a (lowercase) pattern against the head of
the input; returns the remaining input. -/
def matchCI : List Char → List Char → Option (List Char)
  | [], rest => some rest
  | _ :: _, [] => none
  | p :: ps, c :: cs => if c.toLower == p then matchCI ps cs else none

/-- Try an alternation of names in order; returns the 0-based index of
the name matched and the remaining input. -/
def matchAlt (names : List String) (i : Nat) (s : List Char) : Option (Nat × List Char) :=
  match names with
  | [] => none
  | n :: rest =>
    match matchCI n.toList s with
    | some r => some (i, r)
    | none => matchAlt rest (i + 1) s

def weekdayNames : List String := ["mon", "tue", "wed", "thu", "fri", "sat", "sun"]

def monthNames : List String :=
  ["jan", "feb", "mar", "apr", "may", "jun", "jul", "aug", "sep", "oct", "nov", "dec"]

def tzNames : List String := ["utc", "gmt"]

def dval (c : Char) : Nat := c.toNat - 48

/-- A 1-2 digit numeric field of the strptime regex: a 2-digit match is
taken when its value is in the 2-digit alternatives `valid2`; otherwise
a single digit with value in `valid1` is taken, and a following second
digit makes the whole match fail (the next format element is never a
digit). -/
def parse2or1 (valid2 : Nat → Bool) (valid1 : Nat → Bool) :
    List Char → Option (Nat × List Char)
  | a :: b :: rest =>
    if a.isDigit && b.isDigit then
      let v := dval a * 10 + dval b
      if valid2 v then some (v, rest) else none
    else if a.isDigit && valid1 (dval a) then some (dval a, b :: rest)
    else none
  | [a] => if a.isDigit && valid1 (dval a) then some (dval a, []) else none
  | [] => none

/-- The exactly-4-digit `%Y` field. -/
def parse4 : List Char → Option (Nat × List Char)
  | a :: b :: c :: d :: rest =>
    if a.isDigit && b.isDigit && c.isDigit && d.isDigit then
      some (dval a * 1000 + dval b * 100 + dval c * 10 + dval d, rest)
    else none
  | _ => none

def expectChar (c : Char) : List Char → Option (List Char)
  | x :: rest => if x == c then some rest else none
  | [] => none

/-- A literal space in the format matches a run of one or more
whitespace characters. -/
def skipSpaces1 : List Char → Option (List Char)
  | c :: rest => if c.isWhitespace then some (rest.dropWhile Char.isWhitespace) else none
  | [] => none

/-- The `%a, %d %b %Y ` part of the format: weekday (ignored), comma,
day, month, year.  Returns `(day, month, year, rest)`. -/
def parseDatePart (cs : List Char) : Option (Nat × Nat × Nat × List Char) :=
  match matchAlt weekdayNames 0 cs with
  | none => none
  | some (_wd, r1) =>
    match expectChar ',' r1 with
    | none => none
    | some r2 =>
      match skipSpaces1 r2 with
      | none => none
      | some r3 =>
        match parse2or1 (fun v => 1 ≤ v && v ≤ 31) (fun v => 1 ≤ v) r3 with
        | none => none
        | some (d, r4) =>
          match skipSpaces1 r4 with
          | none => none
          | some r5 =>
            match matchAlt monthNames 0 r5 with
            | none => none
            | some (mo0, r6) =>
              match skipSpaces1 r6 with
              | none => none
              | some r7 =>
                match parse4 r7 with
                | none => none
                | some (y, r8) =>
                  match skipSpaces1 r8 with
                  | none => none
                  | some r9 => some (d, mo0 + 1, y, r9)

/-- The `%H:%M:%S %Z` part of the format.  Returns
`(hour, minute, second, rest)`; the timezone name is matched against
UTC/GMT and then discarded (the code replaces it with UTC). -/
def parseTimePart (cs : List Char) : Option (Nat × Nat × Nat × List Char) :=
  match parse2or1 (fun v => v ≤ 23) (fun _ => true) cs with
  | none => none
  | some (hh, r1) =>
    match expectChar ':' r1 with
    | none => none
    | some r2 =>
      match parse2or1 (fun v => v ≤ 59) (fun _ => true) r2 with
      | none => none
      | some (mi, r3) =>
        match expectChar ':' r3 with
        | none => none
        | some r4 =>
          match parse2or1 (fun v => v ≤ 61) (fun _ => true) r4 with
          | none => none
          | some (ss, r5) =>
            match skipSpaces1 r5 with
            | none => none
            | some r6 =>
              match matchAlt tzNames 0 r6 with
              | none => none
              | some (_tz, r7) => some (hh, mi, ss, r7)

/-- `datetime.strptime(s, '%a, %d %b %Y %H:%M:%S %Z')` followed by
`.replace(tzinfo=timezone.utc)`, as epoch microseconds; `none` models
the `ValueError` on any parse or constructor failure (including the
range validation done by the `datetime` constructor). -/
def parseRetryDate (s : String) : Option Int :=
  match parseDatePart s.toList with
  | none => none
  | some (d, mo, y, r1) =>
    match parseTimePart r1 with
    | none => none
    | some (hh, mi, ss, r2) =>
      if r2 = [] then
        if 1 ≤ y && d ≤ daysInMonth y mo && ss ≤ 59 then
          some ((daysFromCivil (y : Int) (mo : Int) (d : Int)) * 86400 * microsPerSecond
            + ((hh : Int) * 3600 + (mi : Int) * 60 + (ss : Int)) * microsPerSecond)
        else none
      else none

/-- The observable outcome of `_handle_rate_limit`: how long the call
sleeps (in microseconds; a zero wait means no sleep) and whether the
parse-error fallback message was printed. -/
structure RateLimitWait where
  waitMicros : Int
  parseErrorLogged : Bool
  deriving DecidableEq, Repr

/-- `_handle_rate_limit(response)` from client.py, as a function of the
status code, the `Retry-After` header value and the current time.
`if not retry_after` treats an absent header and an empty header value
alike (fixed 60-second wait, no parse-error message). -/
def handle_rate_limit (status : Nat) (retryAfter : Option String) (nowMicros : Int) :
    RateLimitWait :=
  if status ≠ 429 then ⟨0, false⟩
  else
    match retryAfter with
    | none => ⟨60 * microsPerSecond, false⟩
    | some ra =>
      if ra = "" then ⟨60 * microsPerSecond, false⟩
      else if pyIsDigit ra then ⟨(digitsToNat ra : Int) * microsPerSecond, false⟩
      else
        match parseRetryDate ra with
        | some t => ⟨max 0 (t - nowMicros), false⟩
        | none => ⟨60 * microsPerSecond, true⟩

/-! ### `_make_request_with_retry`

The transport is an oracle from HTTP-request index to outcome; `nows`
gives the clock value observed while handling the outcome of a given
request. -/

/-- Outcome of one `session.request(...)` call: a response, or a raised
`requests.exceptions.RequestException` (transport failure, with
`response` attribute `None`). -/
inductive AttemptOutcome where
  | resp (r : Response)
  | exn

/-- Result of one `_make_request_with_retry` call: the response or the
propagated transport exception, the number of HTTP requests issued, and
the waits performed (in microseconds, in order). -/
structure CallResult where
  out : Except Unit Response
  used : Nat
  sleeps : List Int

def max_retries : Nat := 3

/-- Outcomes that make the loop retry on a non-final attempt. -/
def isTrigger : AttemptOutcome → Bool
  | .resp r => r.status_code == 429
  | .exn => true

/-- The `for attempt in range(max_retries)` loop of
`_make_request_with_retry`, over the list of remaining attempt indices
(`attempt < max_retries - 1` is exactly "not the last index"): a 429
response on a non-final attempt sleeps per `_handle_rate_limit` and
retries, a transport exception on a non-final attempt sleeps 1 second
and retries; on the final attempt the response (429 included) is
returned as-is and the exception is re-raised.  The empty-list case is
unreachable for a nonempty index range (every final iteration returns
or raises). -/
def attemptLoop (oracle : Nat → AttemptOutcome) (nows : Nat → Int) :
    List Nat → CallResult
  | [] => ⟨.error (), 0, []⟩
  | [attempt] =>
    match oracle attempt with
    | .resp r => ⟨.ok r, 1, []⟩
    | .exn => ⟨.error (), 1, []⟩
  | attempt :: next :: rest =>
    match oracle attempt with
    | .resp r =>
      if r.status_code == 429 then
        let w := handle_rate_limit r.status_code r.retryAfter (nows attempt)
        let k := attemptLoop oracle nows (next :: rest)
        ⟨k.out, k.used + 1, w.waitMicros :: k.sleeps⟩
      else ⟨.ok r, 1, []⟩
    | .exn =>
      let k := attemptLoop oracle nows (next :: rest)
      ⟨k.out, k.used + 1, microsPerSecond :: k.sleeps⟩

def make_request_with_retry (oracle : Nat → AttemptOutcome) (nows : Nat → Int) :
    CallResult :=
  attemptLoop oracle nows (List.range max_retries)

/-- The transport oracle advanced past the requests a previous client
call consumed. -/
def shiftOracle (oracle : Nat → AttemptOutcome) (k : Nat) : Nat → AttemptOutcome :=
  fun i => oracle (k + i)

def shiftNows (nows : Nat → Int) (k : Nat) : Nat → Int :=
  fun i => nows (k + i)

/-! ### Client operations -/

/-- `get_datasets` never returns an error value: any caught
`RequestException` (transport failure after retries, `raise_for_status`,
or an unparseable JSON body, which `requests` raises as a
`JSONDecodeError`, itself a `RequestException`) runs `sys.exit(1)`. -/
inductive GetDatasetsOutcome where
  | data (v : JsonVal)
  | exitProcess (code : Nat)

/-- `get_datasets()` from client.py. -/
def get_datasets (oracle : Nat → AttemptOutcome) (nows : Nat → Int) :
    GetDatasetsOutcome :=
  match (make_request_with_retry oracle nows).out with
  | .error _ => .exitProcess 1
  | .ok r =>
    if raiseStatus r then .exitProcess 1
    else
      match r.jsonResult with
      | .ok v => .data v
      | .error _ => .exitProcess 1

def envDefault : JsonVal :=
  .obj [("name", .str "Unknown"), ("slug", .str "unknown")]

def envDefaults : JsonVal :=
  .obj [("environment", envDefault), ("team", envDefault)]

/-- `get_environment_info()` from client.py.  The `except` clause
catches every `RequestException` (transport, `raise_for_status`, JSON
decode) and returns the defaults; but `auth_info.get(...)` on a body
that parsed as valid non-object JSON raises an `AttributeError` that
nothing catches. -/
def get_environment_info (oracle : Nat → AttemptOutcome) (nows : Nat → Int) :
    Except PyErr JsonVal :=
  match (make_request_with_retry oracle nows).out with
  | .error _ => .ok envDefaults
  | .ok r =>
    if raiseStatus r then .ok envDefaults
    else
      match r.jsonResult with
      | .error _ => .ok envDefaults
      | .ok j =>
        match j with
        | .obj fs =>
          .ok (.obj [("environment", fieldGetD fs "environment" envDefault),
                     ("team", fieldGetD fs "team" envDefault)])
        | _ => .error .attributeError

/-- Which diagnostic `get_columns` printed on a caught failure. -/
inductive ColMsg where
  | noMsg
  | permHint
  | genericMsg
  deriving DecidableEq, Repr

/-- `get_columns(dataset_slug)` from client.py.  The handler runs
`e.response.status_code` guarded only by `hasattr(e, "response")`:
for a transport failure, and for a `JSONDecodeError` after a 2xx
response, `e.response` is `None`, so the handler itself raises an
`AttributeError` instead of returning the empty list. -/
def get_columns (oracle : Nat → AttemptOutcome) (nows : Nat → Int) :
    Except PyErr (JsonVal × ColMsg) :=
  match (make_request_with_retry oracle nows).out with
  | .error _ => .error .attributeError
  | .ok r =>
    if raiseStatus r then
      if r.status_code == 401 then .ok (.arr [], .permHint)
      else .ok (.arr [], .genericMsg)
    else
      match r.jsonResult with
      | .ok v => .ok (v, .noMsg)
      | .error _ => .error .attributeError

/-- `disable_deletion_protection(dataset_slug)` from client.py: a PUT
of `{"settings": {"delete_protected": false}}`; returns the success
boolean and the number of HTTP requests consumed (its handler checks
`e.response is not None` and never raises). -/
def disable_deletion_protection (oracle : Nat → AttemptOutcome) (nows : Nat → Int) :
    Bool × Nat :=
  let c := make_request_with_retry oracle nows
  match c.out with
  | .error _ => (false, c.used)
  | .ok r => (!raiseStatus r, c.used)

/-- The logical requests a dataset deletion performs, in order. -/
inductive ReqKind where
  | deleteReq
  | putReq
  deriving DecidableEq, Repr

/-- Result of `delete_dataset`: the returned boolean (or the uncaught
Python exception) and the logical request sequence issued. -/
structure DeleteOutcome where
  result : Except PyErr Bool
  calls : List ReqKind

/-- `_retry_delete_after_unprotect(dataset_slug, url)` from client.py.
`calls` lists the logical requests made by this helper itself. -/
def retry_delete_after_unprotect (oracle : Nat → AttemptOutcome) (nows : Nat → Int) :
    DeleteOutcome :=
  let d := disable_deletion_protection oracle nows
  if !d.1 then ⟨.ok false, [.putReq]⟩
  else
    let c := make_request_with_retry (shiftOracle oracle d.2) (shiftNows nows d.2)
    match c.out with
    | .error _ => ⟨.ok false, [.putReq, .deleteReq]⟩
    | .ok r => ⟨.ok (!raiseStatus r), [.putReq, .deleteReq]⟩

/-- `_handle_delete_error(e, ...)` from client.py, for the case where
the exception carries a response (`raise_for_status`).  `calls` lists
the logical requests made while handling the error. -/
def handle_delete_error (oracle : Nat → AttemptOutcome) (nows : Nat → Int)
    (r : Response) (disable_protection : Bool) : DeleteOutcome :=
  if r.status_code == 409 && disable_protection then
    match is_deletion_protected r with
    | .error e => ⟨.error e, []⟩
    | .ok true => retry_delete_after_unprotect oracle nows
    | .ok false =>
      match print_delete_error r with
      | .ok _ => ⟨.ok false, []⟩
      | .error e => ⟨.error e, []⟩
  else
    match print_delete_error r with
    | .ok _ => ⟨.ok false, []⟩
    | .error e => ⟨.error e, []⟩

/-- `delete_dataset(dataset_slug, disable_protection)` from client.py. -/
def delete_dataset (oracle : Nat → AttemptOutcome) (nows : Nat → Int)
    (disable_protection : Bool) : DeleteOutcome :=
  let c := make_request_with_retry oracle nows
  match c.out with
  | .error _ => ⟨.ok false, [.deleteReq]⟩
  | .ok r =>
    if raiseStatus r then
      let h := handle_delete_error (shiftOracle oracle c.used) (shiftNows nows c.used)
        r disable_protection
      ⟨h.result, .deleteReq :: h.calls⟩
    else ⟨.ok true, [.deleteReq]⟩

/-! ### The inactivity classifier (main.py)

`datetime.fromisoformat` is modelled on the format it documents and
parses (CPython 3.7-3.10 strict grammar, digits ASCII):
`YYYY-MM-DD[*HH[:MM[:SS[.fff[fff]]]]][+HH:MM[:SS[.ffffff]]]` with any
single character as date/time separator, the timezone part split at
the first `-` (else `+`) of the time string, and the `datetime`
constructor range validation. -/

/-- A parsed `datetime` value: the wall-clock microseconds of its naive
components (epoch-style, proleptic Gregorian) and, when aware, the UTC
offset in microseconds. -/
structure IsoDateTime where
  wallMicros : Int
  offset : Option Int
  deriving DecidableEq, Repr

/-- Exact-length fractional-second part: 3 or 6 digits. -/
def parseFrac : List Char → Option Nat
  | [a, b, c] =>
    if a.isDigit && b.isDigit && c.isDigit then
      some ((dval a * 100 + dval b * 10 + dval c) * 1000)
    else none
  | [a, b, c, d, e, f] =>
    if a.isDigit && b.isDigit && c.isDigit && d.isDigit && e.isDigit && f.isDigit then
      some (dval a * 100000 + dval b * 10000 + dval c * 1000 + dval d * 100
        + dval e * 10 + dval f)
    else none
  | _ => none

/-- `_parse_hh_mm_ss_ff`: `HH[:MM[:SS[.fff[fff]]]]`, consuming the whole
input. -/
def parseHMSF : List Char → Option (Nat × Nat × Nat × Nat)
  | a :: b :: rest =>
    if !(a.isDigit && b.isDigit) then none
    else
      let hh := dval a * 10 + dval b
      match rest with
      | [] => some (hh, 0, 0, 0)
      | ':' :: c :: d :: rest2 =>
        if !(c.isDigit && d.isDigit) then none
        else
          let mm := dval c * 10 + dval d
          match rest2 with
          | [] => some (hh, mm, 0, 0)
          | ':' :: e :: f :: rest3 =>
            if !(e.isDigit && f.isDigit) then none
            else
              let ss := dval e * 10 + dval f
              match rest3 with
              | [] => some (hh, mm, ss, 0)
              | '.' :: fr =>
                match parseFrac fr with
                | some us => some (hh, mm, ss, us)
                | none => none
              | _ => none
          | _ => none
      | _ => none
  | _ => none

/-- `YYYY-MM-DD` with strict ASCII digits; returns the remaining
input. -/
def parseISODate : List Char → Option (Nat × Nat × Nat × List Char)
  | y1 :: y2 :: y3 :: y4 :: '-' :: m1 :: m2 :: '-' :: d1 :: d2 :: rest =>
    if y1.isDigit && y2.isDigit && y3.isDigit && y4.isDigit && m1.isDigit && m2.isDigit
        && d1.isDigit && d2.isDigit then
      some (dval y1 * 1000 + dval y2 * 100 + dval y3 * 10 + dval y4,
        dval m1 * 10 + dval m2, dval d1 * 10 + dval d2, rest)
    else none
  | _ => none

/-- Split a character list at the first occurrence of `ch` (excluded). -/
def splitAtFirst (ch : Char) : List Char → Option (List Char × List Char)
  | [] => none
  | c :: rest =>
    if c == ch then some ([], rest)
    else
      match splitAtFirst ch rest with
      | some (pre, post) => some (c :: pre, post)
      | none => none

/-- `tstr.find('-') + 1 or tstr.find('+') + 1`: the timezone part
starts at the first `-` if there is one, else at the first `+`.
Returns the time part and, when a sign was found, the sign (negative?)
with the timezone digits. -/
def splitTZ (tstr : List Char) : List Char × Option (Bool × List Char) :=
  match splitAtFirst '-' tstr with
  | some (pre, post) => (pre, some (true, post))
  | none =>
    match splitAtFirst '+' tstr with
    | some (pre, post) => (pre, some (false, post))
    | none => (tstr, none)

/-- `_parse_isoformat_time`: time components plus an optional UTC
offset in microseconds.  A timezone part must be 5, 8 or 15 characters
(`HH:MM`, `HH:MM:SS`, `HH:MM:SS.ffffff`) and its offset must be
strictly smaller than 24 hours in magnitude (the `timezone`
constructor bound). -/
def parseISOTime (tstr : List Char) : Option (Nat × Nat × Nat × Nat × Option Int) :=
  let split := splitTZ tstr
  match parseHMSF split.1 with
  | none => none
  | some (hh, mm, ss, us) =>
    match split.2 with
    | none => some (hh, mm, ss, us, none)
    | some (neg, tzstr) =>
      if tzstr.length == 5 || tzstr.length == 8 || tzstr.length == 15 then
        match parseHMSF tzstr with
        | none => none
        | some (th, tm, ts, tus) =>
          let mag : Int := ((th * 3600 + tm * 60 + ts : Nat) : Int) * microsPerSecond + (tus : Int)
          let off : Int := if neg then -mag else mag
          if mag < microsPerDay then some (hh, mm, ss, us, some off) else none
      else none

/-- `datetime.fromisoformat(s)` on the strict grammar, `none` for the
`ValueError` on any parse or constructor failure. -/
def fromisoformat (s : String) : Option IsoDateTime :=
  match parseISODate s.toList with
  | none => none
  | some (y, mo, d, rest) =>
    let timeOpt :=
      match rest with
      | [] => some (0, 0, 0, 0, (none : Option Int))
      | _sep :: tstr => parseISOTime tstr
    match timeOpt with
    | none => none
    | some (hh, mm, ss, us, off) =>
      if 1 ≤ y && 1 ≤ mo && mo ≤ 12 && 1 ≤ d && d ≤ daysInMonth y mo
          && hh ≤ 23 && mm ≤ 59 && ss ≤ 59 then
        some ⟨(daysFromCivil (y : Int) (mo : Int) (d : Int)) * microsPerDay
          + ((hh : Int) * 3600 + (mm : Int) * 60 + (ss : Int)) * microsPerSecond + (us : Int),
          off⟩
      else none

/-- The injectable current instant: the value `datetime.now(tz)` takes
in the two frames the classifier can ask for (`tz` the timestamp's
timezone): as an absolute instant in epoch microseconds (aware
timestamps) and as local naive wall-clock microseconds (naive
timestamps). -/
structure PyNow where
  absMicros : Int
  localWallMicros : Int

/-- The value a datetime contributes to a comparison in its own frame:
wall clock for naive values, UTC instant for aware ones. -/
def frameVal (dt : IsoDateTime) : Int :=
  match dt.offset with
  | none => dt.wallMicros
  | some o => dt.wallMicros - o

/-- `datetime.now(tzinfo)` in the comparison frame selected by the
timestamp's timezone. -/
def frameNow (n : PyNow) : Option Int → Int
  | none => n.localWallMicros
  | some _ => n.absMicros

/-- The observable outcome of a classifier call: the returned boolean
and, when the could-not-parse warning was printed, the display value
that identifies the resource in it. -/
structure ClassifyOut where
  inactive : Bool
  warnKey : Option JsonVal

/-- `is_column_inactive(column, days)` from main.py.  The `except`
clause catches `ValueError` and `TypeError`; `last_written.replace` on
a truthy non-string field value raises an uncaught `AttributeError`. -/
def is_column_inactive (column : List (String × JsonVal)) (days : Int) (n : PyNow) :
    Except PyErr ClassifyOut :=
  let last_written := fieldGet column "last_written"
  if !pyTruthy last_written then .ok ⟨true, none⟩
  else
    match last_written with
    | .str s =>
      match fromisoformat (replaceZ s) with
      | some dt =>
        .ok ⟨decide (frameVal dt < frameNow n dt.offset - days * microsPerDay), none⟩
      | none => .ok ⟨true, some (fieldGetD column "key_name" (.str "unknown"))⟩
    | _ => .error .attributeError

/-- `is_dataset_inactive(dataset, days)` from main.py: identical logic
over the `last_written_at` field, warning with the dataset `name`. -/
def is_dataset_inactive (dataset : List (String × JsonVal)) (days : Int) (n : PyNow) :
    Except PyErr ClassifyOut :=
  let last_written := fieldGet dataset "last_written_at"
  if !pyTruthy last_written then .ok ⟨true, none⟩
  else
    match last_written with
    | .str s =>
      match fromisoformat (replaceZ s) with
      | some dt =>
        .ok ⟨decide (frameVal dt < frameNow n dt.offset - days * microsPerDay), none⟩
      | none => .ok ⟨true, some (fieldGetD dataset "name" (.str "unknown"))⟩
    | _ => .error .attributeError

/-! ### Claim C2 -/

/-- C2: for a 429 response handled by the backoff (which the retry loop
invokes exactly on non-final attempts), a `Retry-After` value that is a
digit string waits exactly that many seconds, and a value in the
modelled HTTP-date format (interpreted as UTC) waits
`max 0 (retry_time - now)` — zero for past dates.  Waits are in
microseconds; the date branch applies when the digit branch does not,
mirroring the order of the checks in the code. -/
theorem c2_retry_after_wait (ra : String) (nowMicros : Int) :
    (pyIsDigit ra = true →
      handle_rate_limit 429 (some ra) nowMicros =
        ⟨(digitsToNat ra : Int) * microsPerSecond, false⟩)
    ∧ (∀ t, pyIsDigit ra = false → parseRetryDate ra = some t →
      handle_rate_limit 429 (some ra) nowMicros = ⟨max 0 (t - nowMicros), false⟩) := by
  constructor
  · intro hd
    have hne : ra ≠ "" := by
      intro hh
      rw [hh] at hd
      exact absurd hd (by decide)
    simp [handle_rate_limit, hne, hd]
  · intro t hd hp
    have hne : ra ≠ "" := by
      intro hh
      have hnone : parseRetryDate "" = none := rfl
      rw [hh, hnone] at hp
      exact Option.noConfusion hp
    simp [handle_rate_limit, hne, hd, hp]

theorem c2_retry_after_wait_witness :
    handle_rate_limit 429 (some "120") 0 = ⟨120 * microsPerSecond, false⟩
    ∧ handle_rate_limit 429 (some "Wed, 21 Oct 2015 07:28:00 GMT") 1445412470000000 =
        ⟨max 0 (1445412480000000 - 1445412470000000), false⟩ := by
  constructor
  · have h := (c2_retry_after_wait "120" 0).1 (by decide)
    rw [h]
    decide
  · exact (c2_retry_after_wait "Wed, 21 Oct 2015 07:28:00 GMT" 1445412470000000).2
      1445412480000000 (by decide) (by decide)

/-! ### Claim C3 -/

/-- C3 counterexample: an empty `Retry-After` header value is present
and parses neither as a non-negative integer nor as an HTTP date, so
the claim requires a 60-second wait with a parse-error message; the
code treats the empty value like an absent header and logs no
parse-error message. -/
theorem c3_counterexample :
    pyIsDigit "" = false ∧ parseRetryDate "" = none ∧
    handle_rate_limit 429 (some "") 0 = ⟨60 * microsPerSecond, false⟩ ∧
    (handle_rate_limit 429 (some "") 0).parseErrorLogged = false :=
  ⟨by decide, rfl, rfl, rfl⟩

/-- C3 (amended): with no `Retry-After` header, or with an empty header
value, the wait is exactly 60 seconds with no parse-error message; with
a nonempty header value that parses neither as a non-negative integer
nor as the expected HTTP-date format, the wait is exactly 60 seconds
and the parse-error message is logged. -/
theorem c3_fallback_wait (ra : String) (nowMicros : Int) :
    (handle_rate_limit 429 none nowMicros = ⟨60 * microsPerSecond, false⟩)
    ∧ (handle_rate_limit 429 (some "") nowMicros = ⟨60 * microsPerSecond, false⟩)
    ∧ (ra ≠ "" → pyIsDigit ra = false → parseRetryDate ra = none →
        handle_rate_limit 429 (some ra) nowMicros = ⟨60 * microsPerSecond, true⟩) := by
  refine ⟨by simp [handle_rate_limit], by simp [handle_rate_limit], ?_⟩
  intro hne hd hp
  simp [handle_rate_limit, hne, hd, hp]

theorem c3_fallback_wait_witness :
    handle_rate_limit 429 (some "soon") 0 = ⟨60 * microsPerSecond, true⟩ :=
  (c3_fallback_wait "soon" 0).2.2 (by decide) (by decide) (by decide)

/-! ### Claims C4 and C5: the retry loop -/

theorem attemptLoop_cons (oracle : Nat → AttemptOutcome) (nows : Nat → Int)
    (a b : Nat) (rest : List Nat) :
    attemptLoop oracle nows (a :: b :: rest) =
      match oracle a with
      | .resp r =>
        if r.status_code == 429 then
          ⟨(attemptLoop oracle nows (b :: rest)).out,
            (attemptLoop oracle nows (b :: rest)).used + 1,
            (handle_rate_limit r.status_code r.retryAfter (nows a)).waitMicros
              :: (attemptLoop oracle nows (b :: rest)).sleeps⟩
        else ⟨.ok r, 1, []⟩
      | .exn =>
        ⟨(attemptLoop oracle nows (b :: rest)).out,
          (attemptLoop oracle nows (b :: rest)).used + 1,
          microsPerSecond :: (attemptLoop oracle nows (b :: rest)).sleeps⟩ := rfl

theorem attemptLoop_single (oracle : Nat → AttemptOutcome) (nows : Nat → Int) (a : Nat) :
    attemptLoop oracle nows [a] =
      match oracle a with
      | .resp r => ⟨.ok r, 1, []⟩
      | .exn => ⟨.error (), 1, []⟩ := rfl

theorem loop_used_pos (oracle : Nat → AttemptOutcome) (nows : Nat → Int)
    (b : Nat) (rest : List Nat) : 1 ≤ (attemptLoop oracle nows (b :: rest)).used := by
  cases rest with
  | nil =>
    rw [attemptLoop_single]
    cases oracle b <;> simp
  | cons c cs =>
    rw [attemptLoop_cons]
    cases oracle b with
    | resp r =>
      by_cases h4 : r.status_code == 429 <;> simp [h4]
    | exn => simp

/-- C4: each logical client call issues at most 3 HTTP requests; a 429
on a non-final attempt triggers the backoff wait and a retry; and a 429
received on the final (third) attempt is returned as-is, with exactly
the two earlier backoff waits and no further one. -/
theorem c4_attempt_bound (oracle : Nat → AttemptOutcome) (nows : Nat → Int) :
    (make_request_with_retry oracle nows).used ≤ 3
    ∧ (∀ r, oracle 0 = .resp r → r.status_code = 429 →
        2 ≤ (make_request_with_retry oracle nows).used ∧
        (make_request_with_retry oracle nows).sleeps.head? =
          some (handle_rate_limit 429 r.retryAfter (nows 0)).waitMicros)
    ∧ (∀ r1, isTrigger (oracle 0) = true → oracle 1 = .resp r1 → r1.status_code = 429 →
        (make_request_with_retry oracle nows).used = 3 ∧
        (make_request_with_retry oracle nows).sleeps.get? 1 =
          some (handle_rate_limit 429 r1.retryAfter (nows 1)).waitMicros)
    ∧ (∀ r, isTrigger (oracle 0) = true → isTrigger (oracle 1) = true →
        oracle 2 = .resp r → r.status_code = 429 →
        (make_request_with_retry oracle nows).out = .ok r ∧
        (make_request_with_retry oracle nows).used = 3 ∧
        (make_request_with_retry oracle nows).sleeps.length = 2) := by
  have hrange : make_request_with_retry oracle nows = attemptLoop oracle nows [0, 1, 2] := rfl
  have hlast : (attemptLoop oracle nows [2]).used = 1 := by
    rw [attemptLoop_single]
    cases oracle 2 <;> simp
  have hmid : (attemptLoop oracle nows [1, 2]).used ≤ 2 := by
    rw [attemptLoop_cons]
    cases oracle 1 with
    | resp r =>
      by_cases h4 : r.status_code == 429
      · simp [h4, hlast]
      · simp [h4]
    | exn => simp [hlast]
  have hfin1 : (attemptLoop oracle nows [2]).used = 1 := by
    rw [attemptLoop_single]
    cases oracle 2 <;> simp
  have hfin2 : (attemptLoop oracle nows [2]).sleeps = [] := by
    rw [attemptLoop_single]
    cases oracle 2 <;> simp
  refine ⟨?_, ?_, ?_, ?_⟩
  · rw [hrange, attemptLoop_cons]
    cases oracle 0 with
    | resp r =>
      by_cases h4 : r.status_code == 429
      · simp only [h4, if_true]
        omega
      · simp [h4]
    | exn =>
      simp only
      omega
  · intro r h0 hst
    rw [hrange, attemptLoop_cons, h0]
    have h4 : r.status_code == 429 := by simp [hst]
    simp only [h4, if_true]
    refine ⟨?_, ?_⟩
    · exact Nat.succ_le_succ (loop_used_pos oracle nows 1 [2])
    · simp [hst]
  · intro r1 h0t h1 hst1
    have h4 : r1.status_code == 429 := by simp [hst1]
    have hmid2 : attemptLoop oracle nows [1, 2] =
        ⟨(attemptLoop oracle nows [2]).out, 2,
          [(handle_rate_limit r1.status_code r1.retryAfter (nows 1)).waitMicros]⟩ := by
      rw [attemptLoop_cons, h1]
      simp [h4, hfin1, hfin2]
    rw [hrange, attemptLoop_cons]
    cases h0 : oracle 0 with
    | resp r0 =>
      have h40 : r0.status_code == 429 := by
        rw [h0] at h0t
        exact h0t
      simp only [h40, if_true]
      rw [hmid2]
      exact ⟨rfl, by simp [hst1]⟩
    | exn =>
      rw [hmid2]
      exact ⟨rfl, by simp [hst1]⟩
  · intro r h0t h1t h2 hst
    rw [hrange, attemptLoop_cons]
    have step1 : ∀ res : CallResult,
        res = attemptLoop oracle nows [1, 2] →
        res.out = .ok r ∧ res.used = 2 ∧ res.sleeps.length = 1 := by
      intro res hres
      rw [attemptLoop_cons] at hres
      have hfin : attemptLoop oracle nows [2] = ⟨.ok r, 1, []⟩ := by
        rw [attemptLoop_single, h2]
      cases h1 : oracle 1 with
      | resp r1 =>
        rw [h1] at hres
        have h4 : r1.status_code == 429 := by
          rw [h1] at h1t
          exact h1t
        simp only [h4, if_true, hfin] at hres
        rw [hres]
        exact ⟨rfl, rfl, rfl⟩
      | exn =>
        rw [h1] at hres
        simp only [hfin] at hres
        rw [hres]
        exact ⟨rfl, rfl, rfl⟩
    cases h0 : oracle 0 with
    | resp r0 =>
      have h4 : r0.status_code == 429 := by
        rw [h0] at h0t
        exact h0t
      simp only [h4, if_true]
      obtain ⟨ho, hu, hs⟩ := step1 _ rfl
      refine ⟨ho, ?_, ?_⟩ <;> simp [hu, hs]
    | exn =>
      obtain ⟨ho, hu, hs⟩ := step1 _ rfl
      refine ⟨ho, ?_, ?_⟩ <;> simp [hu, hs]

theorem c4_attempt_bound_witness :
    (make_request_with_retry (fun _ => .resp ⟨429, some "5", "", .error ()⟩)
        (fun _ => 0)).out = .ok ⟨429, some "5", "", .error ()⟩ ∧
    (make_request_with_retry (fun _ => .resp ⟨429, some "5", "", .error ()⟩)
        (fun _ => 0)).used = 3 ∧
    (make_request_with_retry (fun _ => .resp ⟨429, some "5", "", .error ()⟩)
        (fun _ => 0)).sleeps.length = 2 :=
  (c4_attempt_bound (fun _ => .resp ⟨429, some "5", "", .error ()⟩) (fun _ => 0)).2.2.2
    ⟨429, some "5", "", .error ()⟩ rfl rfl rfl rfl

/-- C5: a transport failure on a non-final attempt waits 1 second and
retries; when all three attempts fail with transport errors the
exception propagates out of the loop, and `get_datasets` then
terminates the process with exit status 1 (non-zero). -/
theorem c5_transport_retry (oracle : Nat → AttemptOutcome) (nows : Nat → Int) :
    (oracle 0 = .exn →
      2 ≤ (make_request_with_retry oracle nows).used ∧
      (make_request_with_retry oracle nows).sleeps.head? = some microsPerSecond)
    ∧ (isTrigger (oracle 0) = true → oracle 1 = .exn →
        (make_request_with_retry oracle nows).used = 3 ∧
        (make_request_with_retry oracle nows).sleeps.get? 1 = some microsPerSecond)
    ∧ (oracle 0 = .exn → oracle 1 = .exn → oracle 2 = .exn →
        (make_request_with_retry oracle nows).out = .error () ∧
        (make_request_with_retry oracle nows).used = 3 ∧
        (make_request_with_retry oracle nows).sleeps = [microsPerSecond, microsPerSecond] ∧
        get_datasets oracle nows = .exitProcess 1) := by
  have hrange : make_request_with_retry oracle nows = attemptLoop oracle nows [0, 1, 2] := rfl
  refine ⟨?_, ?_, ?_⟩
  · intro h0
    rw [hrange, attemptLoop_cons, h0]
    exact ⟨Nat.succ_le_succ (loop_used_pos oracle nows 1 [2]), rfl⟩
  · intro h0t h1
    have hfin1 : (attemptLoop oracle nows [2]).used = 1 := by
      rw [attemptLoop_single]
      cases oracle 2 <;> simp
    have hfin2 : (attemptLoop oracle nows [2]).sleeps = [] := by
      rw [attemptLoop_single]
      cases oracle 2 <;> simp
    have hmid2 : attemptLoop oracle nows [1, 2] =
        ⟨(attemptLoop oracle nows [2]).out, 2, [microsPerSecond]⟩ := by
      rw [attemptLoop_cons, h1]
      simp [hfin1, hfin2]
    rw [hrange, attemptLoop_cons]
    cases h0 : oracle 0 with
    | resp r0 =>
      have h40 : r0.status_code == 429 := by
        rw [h0] at h0t
        exact h0t
      simp only [h40, if_true]
      rw [hmid2]
      exact ⟨rfl, rfl⟩
    | exn =>
      rw [hmid2]
      exact ⟨rfl, rfl⟩
  · intro h0 h1 h2
    have hfull : attemptLoop oracle nows [0, 1, 2] =
        ⟨.error (), 3, [microsPerSecond, microsPerSecond]⟩ := by
      rw [attemptLoop_cons, h0, attemptLoop_cons, h1, attemptLoop_single, h2]
    refine ⟨?_, ?_, ?_, ?_⟩
    · rw [hrange, hfull]
    · rw [hrange, hfull]
    · rw [hrange, hfull]
    · unfold get_datasets
      rw [hrange, hfull]

theorem c5_transport_retry_witness :
    get_datasets (fun _ => .exn) (fun _ => 0) = .exitProcess 1 ∧
    (make_request_with_retry (fun _ => .exn) (fun _ => 0)).used = 3 ∧
    (make_request_with_retry (fun _ => .exn) (fun _ => 0)).sleeps =
      [microsPerSecond, microsPerSecond] := by
  have h := (c5_transport_retry (fun _ => .exn) (fun _ => 0)).2.2 rfl rfl rfl
  exact ⟨h.2.2.2, h.2.1, h.2.2.1⟩

/-! ### Claim C6 -/

/-- C6 counterexample: a 200 response whose body is valid JSON but not
an object (here `[]`) makes `get_environment_info` raise an
`AttributeError` from `auth_info.get(...)`, contradicting the claim
that it never raises for any outcome of the underlying request. -/
theorem c6_counterexample :
    get_environment_info (fun _ => .resp ⟨200, none, "[]", .ok (.arr [])⟩)
      (fun _ => 0) = .error .attributeError := rfl

/-- C6 (amended): `get_environment_info` returns a map with keys
`environment` and `team`, substituting the
`{name: "Unknown", slug: "unknown"}` default for each key missing from
the body, and returning both defaults on any request failure (transport
error after retries, error status, or unparseable body — the
`JSONDecodeError` of `requests` is a `RequestException` and is caught);
it never raises provided a success-status body that parses as valid
JSON parses as a JSON object, while a valid non-object body raises an
uncaught `AttributeError`. -/
theorem c6_env_info_defaults (oracle : Nat → AttemptOutcome) (nows : Nat → Int) :
    ((make_request_with_retry oracle nows).out = .error () →
      get_environment_info oracle nows = .ok envDefaults)
    ∧ (∀ r, (make_request_with_retry oracle nows).out = .ok r → raiseStatus r = true →
        get_environment_info oracle nows = .ok envDefaults)
    ∧ (∀ r, (make_request_with_retry oracle nows).out = .ok r → raiseStatus r = false →
        r.jsonResult = .error () →
        get_environment_info oracle nows = .ok envDefaults)
    ∧ (∀ r fs, (make_request_with_retry oracle nows).out = .ok r → raiseStatus r = false →
        r.jsonResult = .ok (.obj fs) →
        get_environment_info oracle nows =
          .ok (.obj [("environment", fieldGetD fs "environment" envDefault),
                     ("team", fieldGetD fs "team" envDefault)])) := by
  refine ⟨?_, ?_, ?_, ?_⟩
  · intro h
    unfold get_environment_info
    rw [h]
  · intro r h hr
    unfold get_environment_info
    rw [h]
    simp [hr]
  · intro r h hr hj
    unfold get_environment_info
    rw [h]
    simp [hr, hj]
  · intro r fs h hr hj
    unfold get_environment_info
    rw [h]
    simp [hr, hj]

theorem c6_env_info_defaults_witness :
    get_environment_info (fun _ => .resp ⟨200, none, "not json", .error ()⟩)
      (fun _ => 0) = .ok envDefaults
    ∧ get_environment_info
        (fun _ => .resp ⟨200, none, "",
          .ok (.obj [("team", .obj [("name", .str "T"), ("slug", .str "t")])])⟩)
        (fun _ => 0) =
      .ok (.obj [("environment", envDefault),
                 ("team", .obj [("name", .str "T"), ("slug", .str "t")])]) := by
  constructor
  · exact (c6_env_info_defaults _ _).2.2.1 ⟨200, none, "not json", .error ()⟩ rfl rfl rfl
  · exact (c6_env_info_defaults _ _).2.2.2
      ⟨200, none, "", .ok (.obj [("team", .obj [("name", .str "T"), ("slug", .str "t")])])⟩
      [("team", .obj [("name", .str "T"), ("slug", .str "t")])] rfl rfl rfl

/-! ### Claim C7 -/

/-- C7: on an HTTP error status `get_columns` returns the empty list —
with the specific permission hint for 401 and the generic message
otherwise — but on a transport failure surfaced after retries (and on
an unparseable body after a success status) `e.response` is `None` and
the handler evaluates `None.status_code`, raising an `AttributeError`
instead of returning the empty list: the missing
`e.response is not None` guard present in every sibling method. -/
theorem c7_get_columns_behavior :
    get_columns (fun _ => .exn) (fun _ => 0) = .error .attributeError
    ∧ get_columns
        (fun _ => .resp ⟨401, none, "", .ok (.obj [("error", .str "Unauthorized")])⟩)
        (fun _ => 0) = .ok (.arr [], .permHint)
    ∧ get_columns (fun _ => .resp ⟨500, none, "", .ok (.obj [("error", .str "boom")])⟩)
        (fun _ => 0) = .ok (.arr [], .genericMsg)
    ∧ get_columns (fun _ => .resp ⟨200, none, "not json", .error ()⟩)
        (fun _ => 0) = .error .attributeError :=
  ⟨rfl, rfl, rfl, rfl⟩

/-! ### Claim C8 -/

/-- C8: for a record whose activity-timestamp field is a string that
parses as an ISO-8601 timestamp (after the literal `Z` is replaced by
`+00:00`), the classifier returns inactive exactly when the timestamp
is strictly before `now - days` days, with `now` taken in the
timestamp's frame (local wall clock for naive timestamps, absolute
instant for aware ones); at the exact boundary the record is active.
Stated for both `is_column_inactive` (`last_written`) and
`is_dataset_inactive` (`last_written_at`). -/
theorem c8_inactive_iff_before_cutoff (column dataset : List (String × JsonVal))
    (days : Int) (n : PyNow) (s sd : String) (dt dtd : IsoDateTime) :
    (fieldGet column "last_written" = .str s →
      fromisoformat (replaceZ s) = some dt →
      is_column_inactive column days n =
        .ok ⟨decide (frameVal dt < frameNow n dt.offset - days * microsPerDay), none⟩
      ∧ (frameVal dt = frameNow n dt.offset - days * microsPerDay →
          is_column_inactive column days n = .ok ⟨false, none⟩))
    ∧ (fieldGet dataset "last_written_at" = .str sd →
        fromisoformat (replaceZ sd) = some dtd →
        is_dataset_inactive dataset days n =
          .ok ⟨decide (frameVal dtd < frameNow n dtd.offset - days * microsPerDay), none⟩
        ∧ (frameVal dtd = frameNow n dtd.offset - days * microsPerDay →
            is_dataset_inactive dataset days n = .ok ⟨false, none⟩)) := by
  constructor
  · intro hf hp
    have hs : s ≠ "" := by
      intro h
      subst h
      have hnone : fromisoformat (replaceZ "") = none := rfl
      rw [hnone] at hp
      exact Option.noConfusion hp
    have hres : is_column_inactive column days n =
        .ok ⟨decide (frameVal dt < frameNow n dt.offset - days * microsPerDay), none⟩ := by
      unfold is_column_inactive
      rw [hf]
      simp [pyTruthy, hs, hp]
    refine ⟨hres, ?_⟩
    intro heq
    rw [hres, heq]
    simp
  · intro hf hp
    have hs : sd ≠ "" := by
      intro h
      subst h
      have hnone : fromisoformat (replaceZ "") = none := rfl
      rw [hnone] at hp
      exact Option.noConfusion hp
    have hres : is_dataset_inactive dataset days n =
        .ok ⟨decide (frameVal dtd < frameNow n dtd.offset - days * microsPerDay), none⟩ := by
      unfold is_dataset_inactive
      rw [hf]
      simp [pyTruthy, hs, hp]
    refine ⟨hres, ?_⟩
    intro heq
    rw [hres, heq]
    simp

theorem c8_inactive_iff_before_cutoff_witness :
    is_column_inactive [("last_written", .str "2023-01-15T10:30:45Z"), ("key_name", .str "c")]
      60 ⟨1673778645000000 + 86400000000 * 61, 0⟩ = .ok ⟨true, none⟩
    ∧ is_dataset_inactive [("last_written_at", .str "2023-01-15T10:30:45Z"), ("name", .str "d")]
      60 ⟨1673778645000000 + 86400000000 * 60, 0⟩ = .ok ⟨false, none⟩ := by
  constructor
  · have h := (c8_inactive_iff_before_cutoff
      [("last_written", .str "2023-01-15T10:30:45Z"), ("key_name", .str "c")] []
      60 ⟨1673778645000000 + 86400000000 * 61, 0⟩
      "2023-01-15T10:30:45Z" "" ⟨1673778645000000, some 0⟩ ⟨0, none⟩).1 rfl (by decide)
    rw [h.1]
    rfl
  · have h := (c8_inactive_iff_before_cutoff []
      [("last_written_at", .str "2023-01-15T10:30:45Z"), ("name", .str "d")]
      60 ⟨1673778645000000 + 86400000000 * 60, 0⟩
      "" "2023-01-15T10:30:45Z" ⟨0, none⟩ ⟨1673778645000000, some 0⟩).2 rfl (by decide)
    exact h.2 (by decide)

/-! ### Claim C9 -/

/-- C9 counterexample: a record whose activity-timestamp field is
present but holds a truthy non-string value (here the number 5) makes
the classifier raise an `AttributeError` from
`last_written.replace(...)` (only `ValueError` and `TypeError` are
caught), contradicting the claim that it classifies inactive and never
raises for every record whose timestamp fails to parse. -/
theorem c9_counterexample :
    is_column_inactive [("last_written", .num 5)] 30 ⟨0, 0⟩ = .error .attributeError := rfl

/-- C9 (amended): a record whose activity-timestamp field is absent,
null or an empty string is classified inactive with no warning,
regardless of `days`; a record whose field is a nonempty string that
fails to parse is classified inactive and logs a warning identifying
the resource by its display name/key, without raising; but a record
whose field holds a truthy non-string value raises an uncaught
`AttributeError`.  Stated for both classifiers. -/
theorem c9_missing_or_malformed (column dataset : List (String × JsonVal))
    (days : Int) (n : PyNow) (s sd : String) :
    (fieldGet column "last_written" = .null →
      is_column_inactive column days n = .ok ⟨true, none⟩)
    ∧ (fieldGet column "last_written" = .str "" →
        is_column_inactive column days n = .ok ⟨true, none⟩)
    ∧ (fieldGet column "last_written" = .str s → s ≠ "" →
        fromisoformat (replaceZ s) = none →
        is_column_inactive column days n =
          .ok ⟨true, some (fieldGetD column "key_name" (.str "unknown"))⟩)
    ∧ (fieldGet dataset "last_written_at" = .null →
        is_dataset_inactive dataset days n = .ok ⟨true, none⟩)
    ∧ (fieldGet dataset "last_written_at" = .str "" →
        is_dataset_inactive dataset days n = .ok ⟨true, none⟩)
    ∧ (fieldGet dataset "last_written_at" = .str sd → sd ≠ "" →
        fromisoformat (replaceZ sd) = none →
        is_dataset_inactive dataset days n =
          .ok ⟨true, some (fieldGetD dataset "name" (.str "unknown"))⟩) := by
  refine ⟨?_, ?_, ?_, ?_, ?_, ?_⟩
  · intro hf
    unfold is_column_inactive
    rw [hf]
    simp [pyTruthy]
  · intro hf
    unfold is_column_inactive
    rw [hf]
    simp [pyTruthy]
  · intro hf hs hp
    unfold is_column_inactive
    rw [hf]
    simp [pyTruthy, hs, hp]
  · intro hf
    unfold is_dataset_inactive
    rw [hf]
    simp [pyTruthy]
  · intro hf
    unfold is_dataset_inactive
    rw [hf]
    simp [pyTruthy]
  · intro hf hs hp
    unfold is_dataset_inactive
    rw [hf]
    simp [pyTruthy, hs, hp]

theorem c9_missing_or_malformed_witness :
    is_column_inactive [] 7 ⟨0, 0⟩ = .ok ⟨true, none⟩
    ∧ is_column_inactive [("last_written", .str "oops"), ("key_name", .str "c")] 7 ⟨0, 0⟩ =
        .ok ⟨true, some (.str "c")⟩
    ∧ is_dataset_inactive [("last_written_at", .str "")] (-3) ⟨0, 0⟩ = .ok ⟨true, none⟩ := by
  refine ⟨?_, ?_, ?_⟩
  · exact (c9_missing_or_malformed [] [] 7 ⟨0, 0⟩ "" "").1 rfl
  · exact (c9_missing_or_malformed [("last_written", .str "oops"), ("key_name", .str "c")]
      [] 7 ⟨0, 0⟩ "oops" "").2.2.1 rfl (by decide) (by decide)
  · exact (c9_missing_or_malformed [] [("last_written_at", .str "")] (-3) ⟨0, 0⟩
      "" "").2.2.2.2.1 rfl

/-! ### Claim C10 -/

/-- C10 counterexample: the response body `5` is valid JSON that is not
an object, and its text does not contain the protection substring, so
the claim requires `_is_deletion_protected` to return false; the code
evaluates `'error' in 5`, which raises an uncaught `TypeError` (only
`ValueError` and `KeyError` are caught). -/
theorem c10_counterexample :
    strContains (strLower "5") "delete protected" = false
    ∧ is_deletion_protected ⟨409, none, "5", .ok (.num 5)⟩ = .error .typeError :=
  ⟨rfl, rfl⟩

/-- C10 (amended): `_is_deletion_protected` returns false without
raising whenever the body text does not contain "delete protected"
case-insensitively and the body is benign: it fails to parse as JSON
(the unparseable case in particular yields false), or parses as a JSON
object whose `error` field is absent or is a string not containing the
substring, or as a string or array not containing `"error"`.  For
other parseable bodies (valid non-object JSON such as numbers, or an
object whose `error` value is not a string) the check raises an
uncaught `TypeError` or `AttributeError`. -/
theorem c10_protected_check_safe (r : Response)
    (hb : benignBody r = true) (hp : claimProtected r = false) :
    is_deletion_protected r = .ok false :=
  benign_not_protected hb hp

theorem c10_protected_check_safe_witness :
    is_deletion_protected ⟨409, none, "conflict", .error ()⟩ = .ok false
    ∧ is_deletion_protected ⟨409, none, "",
        .ok (.obj [("error", .str "dataset busy")])⟩ = .ok false :=
  ⟨c10_protected_check_safe ⟨409, none, "conflict", .error ()⟩ rfl rfl,
   c10_protected_check_safe ⟨409, none, "", .ok (.obj [("error", .str "dataset busy")])⟩
     rfl rfl⟩

/-! ### Claim C1 -/

/-- C1 counterexample: the first DELETE fails with a 409 whose body is
the valid non-object JSON `5` (no protection text), and
`disable_protection` is true.  The claim requires the original error to
be reported and `false` returned with no disable call and no retry; the
code instead raises an uncaught `TypeError` out of
`_is_deletion_protected` (`'error' in 5`). -/
theorem c1_counterexample :
    claimProtected ⟨409, none, "5", .ok (.num 5)⟩ = false
    ∧ delete_dataset (fun _ => .resp ⟨409, none, "5", .ok (.num 5)⟩) (fun _ => 0) true =
        ⟨.error .typeError, [.deleteReq]⟩ :=
  ⟨rfl, rfl⟩

/-- C1 (amended): when the first DELETE fails with a 409 response whose
body text or JSON `error` string contains "delete protected"
case-insensitively and `disable_protection` is true, the client first
calls `disable_deletion_protection`; if that fails it returns false
with no DELETE retry, and if it succeeds it retries the DELETE exactly
once and returns true iff the retry succeeds.  Every other failing
response is reported and yields false with no disable call and no
retry, provided the error handling does not raise: on a non-409
response, or with `disable_protection` false, this holds whenever the
body fails to parse, or parses as a JSON object (any `error` value is
printed as-is), or as a string or array not containing `"error"`; on a
409 with `disable_protection` true but without protection text the
object's `error` field must additionally be absent or a string,
because the protection check lowercases it.  For the remaining
parseable bodies (non-container JSON such as `5`, a string or array
containing `"error"`, or — only on the protection path — an object
with a non-string `error` value) an uncaught `TypeError` or
`AttributeError` propagates (see the counterexample). -/
theorem c1_delete_dataset_spec (oracle : Nat → AttemptOutcome) (nows : Nat → Int)
    (dp : Bool) (r : Response)
    (hout : (make_request_with_retry oracle nows).out = .ok r)
    (hfail : raiseStatus r = true) :
    (dp = true → r.status_code = 409 → claimProtected r = true →
      ∀ db kd, disable_deletion_protection
          (shiftOracle oracle (make_request_with_retry oracle nows).used)
          (shiftNows nows (make_request_with_retry oracle nows).used) = (db, kd) →
        ((db = false →
          delete_dataset oracle nows dp = ⟨.ok false, [.deleteReq, .putReq]⟩)
        ∧ (db = true →
            (∀ r2, (make_request_with_retry
                (shiftOracle (shiftOracle oracle (make_request_with_retry oracle nows).used) kd)
                (shiftNows (shiftNows nows (make_request_with_retry oracle nows).used) kd)).out
                  = .ok r2 →
              delete_dataset oracle nows dp =
                ⟨.ok (!raiseStatus r2), [.deleteReq, .putReq, .deleteReq]⟩)
            ∧ ((make_request_with_retry
                (shiftOracle (shiftOracle oracle (make_request_with_retry oracle nows).used) kd)
                (shiftNows (shiftNows nows (make_request_with_retry oracle nows).used) kd)).out
                  = .error () →
              delete_dataset oracle nows dp =
                ⟨.ok false, [.deleteReq, .putReq, .deleteReq]⟩))))
    ∧ ((r.status_code ≠ 409 ∨ dp = false) → printSafe r = true →
        delete_dataset oracle nows dp = ⟨.ok false, [.deleteReq]⟩)
    ∧ (dp = true → r.status_code = 409 → claimProtected r = false →
        benignBody r = true →
        delete_dataset oracle nows dp = ⟨.ok false, [.deleteReq]⟩) := by
  refine ⟨?_, ?_, ?_⟩
  · intro hdp hst hprot db kd hd
    subst hdp
    have hguard : (r.status_code == 409 && true) = true := by simp [hst]
    have hmain : delete_dataset oracle nows true =
        ⟨(retry_delete_after_unprotect
            (shiftOracle oracle (make_request_with_retry oracle nows).used)
            (shiftNows nows (make_request_with_retry oracle nows).used)).result,
          .deleteReq :: (retry_delete_after_unprotect
            (shiftOracle oracle (make_request_with_retry oracle nows).used)
            (shiftNows nows (make_request_with_retry oracle nows).used)).calls⟩ := by
      simp only [delete_dataset]
      rw [hout]
      simp only [hfail, if_true]
      simp only [handle_delete_error, hguard, if_true]
      rw [claimProtected_check hprot]
    refine ⟨?_, ?_⟩
    · intro hdb
      subst hdb
      rw [hmain]
      simp only [retry_delete_after_unprotect]
      rw [hd]
      simp
    · intro hdb
      subst hdb
      constructor
      · intro r2 hr2
        rw [hmain]
        simp only [retry_delete_after_unprotect]
        rw [hd]
        simp only [Bool.not_true, Bool.false_eq_true, if_false]
        rw [hr2]
      · intro hr2
        rw [hmain]
        simp only [retry_delete_after_unprotect]
        rw [hd]
        simp only [Bool.not_true, Bool.false_eq_true, if_false]
        rw [hr2]
  · intro hother hps
    have hpr := printSafe_print hps
    have hguard : ¬(r.status_code == 409 && dp) = true := by
      intro hx
      have h2 := (Bool.and_eq_true _ _).mp hx
      rcases hother with h | h
      · exact h (by simpa using h2.1)
      · rw [h] at h2
        exact Bool.false_ne_true h2.2
    simp only [delete_dataset]
    rw [hout]
    simp only [hfail, if_true]
    simp only [handle_delete_error]
    simp only [hguard, if_false]
    rw [hpr]
    simp
  · intro hdp hst hprot hb
    subst hdp
    have hguard : (r.status_code == 409 && true) = true := by simp [hst]
    have hisdp := benign_not_protected hb hprot
    have hpr := benign_print hb
    simp only [delete_dataset]
    rw [hout]
    simp only [hfail, if_true]
    simp only [handle_delete_error, hguard, if_true]
    rw [hisdp, hpr]

/-- The 409 delete-protected response used by the C1 witness scenarios
(protection signalled through the JSON `error` field). -/
def c1wProtResp : Response :=
  ⟨409, none, "", .ok (.obj [("error", .str "Dataset is delete protected")])⟩

/-- Witness transport: first request returns the protected 409, every
later request (the PUT and the retried DELETE) succeeds. -/
def c1wOracleOk : Nat → AttemptOutcome :=
  fun i => if i == 0 then .resp c1wProtResp else .resp ⟨200, none, "", .ok (.arr [])⟩

/-- Witness transport: first request returns the protected 409, the PUT
to disable protection fails with 403. -/
def c1wOracle403 : Nat → AttemptOutcome :=
  fun i => if i == 0 then .resp c1wProtResp
    else .resp ⟨403, none, "", .ok (.obj [("error", .str "Forbidden")])⟩

theorem c1_delete_dataset_spec_witness :
    delete_dataset c1wOracleOk (fun _ => 0) true =
      ⟨.ok true, [.deleteReq, .putReq, .deleteReq]⟩
    ∧ delete_dataset c1wOracle403 (fun _ => 0) true = ⟨.ok false, [.deleteReq, .putReq]⟩
    ∧ delete_dataset (fun _ => .resp ⟨404, none, "", .ok (.obj [("error", .num 5)])⟩)
        (fun _ => 0) true = ⟨.ok false, [.deleteReq]⟩
    ∧ delete_dataset (fun _ => .resp ⟨409, none, "", .ok (.obj [("error", .str "conflict")])⟩)
        (fun _ => 0) true = ⟨.ok false, [.deleteReq]⟩ := by
  refine ⟨?_, ?_, ?_, ?_⟩
  · exact ((c1_delete_dataset_spec c1wOracleOk (fun _ => 0) true c1wProtResp rfl rfl).1
      rfl rfl (by decide) true 1 rfl).2 rfl |>.1 ⟨200, none, "", .ok (.arr [])⟩ rfl
  · exact ((c1_delete_dataset_spec c1wOracle403 (fun _ => 0) true c1wProtResp rfl rfl).1
      rfl rfl (by decide) false 1 rfl).1 rfl
  · exact (c1_delete_dataset_spec
      (fun _ => .resp ⟨404, none, "", .ok (.obj [("error", .num 5)])⟩)
      (fun _ => 0) true ⟨404, none, "", .ok (.obj [("error", .num 5)])⟩ rfl rfl).2.1
      (Or.inl (by decide)) rfl
  · exact (c1_delete_dataset_spec
      (fun _ => .resp ⟨409, none, "", .ok (.obj [("error", .str "conflict")])⟩)
      (fun _ => 0) true ⟨409, none, "", .ok (.obj [("error", .str "conflict")])⟩ rfl rfl).2.2
      rfl rfl (by decide) rfl

end HoneycombCleaner
